import Mathlib

/-!
# Verification of the joblet-mcp-server tool-dispatch and execution layer

This file gives a shallow embedding of the tool-dispatch, command-building,
process-execution, result-normalization, identifier-resolution and
status-polling logic of the joblet-mcp-server repository, and proves the
spec's claims about it.

The repository's Python test suite (`tests/`, `tests/e2e/`) is embedded
directly; the server component (`joblet_mcp_server.server`) is not part of
the available sources, so its operations are modelled from the spec where
needed (each such definition says so in its doc comment).
-/

namespace JobletMcp

/-! ## String primitives

Executable embeddings of the Python string operations the source uses
(`str.strip`, `str.split("\n")`, prefix tests), implemented by structural
recursion over the character list so that every definition in this file
evaluates inside the kernel. -/

/-- Decidable equality for `Except`, so results of fallible operations can
be compared on concrete inputs. -/
instance exceptDecEq {ε α : Type} [DecidableEq ε] [DecidableEq α] :
    DecidableEq (Except ε α)
  | Except.ok a, Except.ok b =>
    if h : a = b then isTrue (by rw [h])
    else isFalse (fun hh => by injection hh; contradiction)
  | Except.ok _, Except.error _ => isFalse (fun h => Except.noConfusion h)
  | Except.error _, Except.ok _ => isFalse (fun h => Except.noConfusion h)
  | Except.error e, Except.error f =>
    if h : e = f then isTrue (by rw [h])
    else isFalse (fun hh => by injection hh; contradiction)

/-- `p` is a prefix of `s`, on the underlying character lists. -/
def strIsPrefixOf (p s : String) : Bool := p.data.isPrefixOf s.data

/-- The whitespace characters removed by Python's default `str.strip()`. -/
def pyWhitespace (c : Char) : Bool :=
  c = ' ' || c = '\t' || c = '\n' || c = '\r' || c = '\x0b' || c = '\x0c'

/-- Python `str.strip()`: drop leading and trailing whitespace. -/
def pyStrip (s : String) : String :=
  String.mk (((s.data.dropWhile pyWhitespace).reverse.dropWhile pyWhitespace).reverse)

/-- Split a character list at every occurrence of `sep` (the separators
are consumed; empty segments are kept, as in Python `str.split(sep)`). -/
def splitCharList (sep : Char) : List Char → List (List Char)
  | [] => [[]]
  | c :: cs =>
      let rest := splitCharList sep cs
      if c = sep then [] :: rest
      else
        match rest with
        | r :: rs => (c :: r) :: rs
        | [] => [[c]]

/-- Python `s.split("\n")`. -/
def pySplitLines (s : String) : List String := (splitCharList '\n' s.data).map String.mk

/-! ## Status polling (embedded from the source test helpers)

`_wait_for_job_completion` (tests/e2e/test_job_management.py, lines 286-303)
and `_wait_for_completion` (tests/e2e/test_examples.py, lines 114-131) are
identical loops:

```
wait_time = 0
while wait_time < max_wait:
    status_result = await server._execute_tool("joblet_get_job_status", ...)
    status_data = json.loads(status_result)
    final_status = status_data.get("status")
    if final_status in ["completed", "failed", "stopped"]:
        return final_status
    await asyncio.sleep(1)
    wait_time += 1
raise TimeoutError(f"Job {job_uuid} did not complete within {max_wait} seconds")
```

The i-th iteration of the loop observes the i-th status; we abstract the
sequence of observed statuses as a function `Nat → String`.
-/

/-- The set of statuses the source polling loops treat as loop-ending:
the literal list `["completed", "failed", "stopped"]` from
tests/e2e/test_job_management.py line 297 (and the identical helpers in
test_examples.py, test_resource_management.py, test_runtimes.py). -/
def terminalCheck : List String := ["completed", "failed", "stopped"]

/-- The closed set of terminal statuses of the spec's data model
(spec §3 PollState): `{completed, failed, stopped, cancelled}`. -/
def terminalStatuses : List String := ["completed", "failed", "stopped", "cancelled"]

/-- The timeout message raised by the source loops:
`f"Job {job_uuid} did not complete within {max_wait} seconds"`. -/
def timeoutMsg (job_uuid : String) (max_wait : Nat) : String :=
  "Job " ++ job_uuid ++ " did not complete within " ++ toString max_wait ++ " seconds"

/-- The body of the `while wait_time < max_wait` loop, recursing on the
remaining budget `max_wait - wait_time`; `wait_time` is the index of the
next status query.  `none` means the budget was exhausted without seeing a
status in `terminalCheck`. -/
def waitForJobCompletionAux (statuses : Nat → String) (wait_time : Nat) :
    Nat → Option String
  | 0 => none
  | remaining + 1 =>
    if statuses wait_time ∈ terminalCheck then some (statuses wait_time)
    else waitForJobCompletionAux statuses (wait_time + 1) remaining

/-- `_wait_for_job_completion(server, job_uuid, max_wait=30)` from
tests/e2e/test_job_management.py lines 286-303: polls the status sequence
starting at `wait_time = 0`, returns the first observed status in
`terminalCheck`, and raises `TimeoutError` with `timeoutMsg` once
`max_wait` iterations have been used up. -/
def waitForJobCompletion (statuses : Nat → String) (job_uuid : String)
    (max_wait : Nat) : Except String String :=
  match waitForJobCompletionAux statuses 0 max_wait with
  | some s => Except.ok s
  | none => Except.error (timeoutMsg job_uuid max_wait)

/-- Status sequence whose first element is the terminal status
`"cancelled"`; all later observations are `"completed"`. -/
def cancelledFirstSeq : Nat → String :=
  fun i => if i = 0 then "cancelled" else "completed"

/-! ## run-job identifier extraction (embedded from the source)

Every e2e test extracts the job identifier from the parsed run-job result
with `job_data.get("job_uuid") or job_data.get("uuid")`
(tests/e2e/test_job_management.py line 35, tests/e2e/test_examples.py
line 43, and elsewhere).  We embed the parsed JSON object as an
association list from keys to string values, `dict.get` as first-match
lookup, and Python's `or` on optional strings (where `None` and the empty
string are falsy). -/

/-- `dict.get(k)`: the value at the first occurrence of key `k`, if any. -/
def pyGet (d : List (String × String)) (k : String) : Option String :=
  (d.find? (fun p => p.fst = k)).map Prod.snd

/-- Python `a or b` on optional strings: `a` unless it is `None` or
`""` (falsy), else `b`. -/
def pyOrStr : Option String → Option String → Option String
  | some s, b => if s = "" then b else some s
  | none, b => b

/-- `job_data.get("job_uuid") or job_data.get("uuid")` from the e2e
tests. -/
def extractJobUuid (d : List (String × String)) : Option String :=
  pyOrStr (pyGet d "job_uuid") (pyGet d "uuid")

/-! ## Invocation context and command building

`JobletConfig` is embedded from tests/test_server.py lines 101-120
(defaults `rnx_binary_path="rnx"`, `config_file=None`,
`node_name="default"`, `json_output=True`).

The command builder itself lives in `joblet_mcp_server.server`, which is
not among the available sources; it is modelled from the spec below. -/

/-- `JobletConfig` (the spec's InvocationContext), embedded from the
configuration tests in tests/test_server.py: binary path, optional config
file, node name, structured-output preference, with the tested default
values. -/
structure JobletConfig where
  rnx_binary_path : String := "rnx"
  config_file : Option String := none
  node_name : String := "default"
  json_output : Bool := true
deriving DecidableEq, Repr

/-- How one argument is rendered onto the command line (spec §3
ToolDescriptor: "CLI-flag name or positional role"; §4.2: list-valued
arguments expand to one flag/value pair per element). -/
inductive ArgRender where
  | positional
  | flag (f : String)
  | repeatedFlag (f : String)
deriving DecidableEq, Repr

/-- One entry of a tool's argument schema: argument name, required flag,
rendering rule (spec §3 ToolDescriptor). -/
structure ArgSpec where
  name : String
  required : Bool
  render : ArgRender
deriving DecidableEq, Repr

/-- A tool descriptor: tool name, sub-command path, declared argument
schema in order (spec §3 ToolDescriptor). -/
structure ToolDescriptor where
  name : String
  path : List String
  args : List ArgSpec
deriving DecidableEq, Repr

/-- A caller-supplied argument value: string, integer (rendered in
decimal, spec §4.2), or list of strings (e.g. args, volumes, rendered
environment entries). -/
inductive ArgValue where
  | str (s : String)
  | num (n : Int)
  | list (xs : List String)
deriving DecidableEq, Repr

/-- The string tokens of one argument value (numbers in decimal form,
spec §4.2). -/
def valueTokens : ArgValue → List String
  | ArgValue.str s => [s]
  | ArgValue.num n => [toString n]
  | ArgValue.list xs => xs

/-- Render one schema entry against a supplied value: positional tokens,
a flag/value pair, or one flag/value pair per list element preserving
order (spec §4.2). -/
def renderArg (spec : ArgSpec) (v : ArgValue) : List String :=
  match spec.render with
  | ArgRender.positional => valueTokens v
  | ArgRender.flag f => f :: valueTokens v
  | ArgRender.repeatedFlag f => (valueTokens v).flatMap (fun t => [f, t])

/-- First-match lookup of an argument by name in the caller's argument
mapping. -/
def lookupArg (args : List (String × ArgValue)) (name : String) : Option ArgValue :=
  (args.find? (fun p => p.fst = name)).map Prod.snd

/-- The tool-specific flags/positionals, in the descriptor's declared
order (spec §4.2); absent optional arguments contribute no tokens. -/
def toolSpecificTokens (d : ToolDescriptor) (args : List (String × ArgValue)) :
    List String :=
  d.args.flatMap (fun spec =>
    match lookupArg args spec.name with
    | some v => renderArg spec v
    | none => [])

/-- The names of required arguments missing from the caller's mapping. -/
def missingRequired (d : ToolDescriptor) (args : List (String × ArgValue)) :
    List String :=
  (d.args.filter (fun s => s.required && (lookupArg args s.name).isNone)).map
    (fun s => s.name)

/-- The global-flag tokens contributed by the optional config-file path:
`--config <path>` when set, nothing when unset (spec §6, tests/test_server.py
line 199 lists the global flags `--config`, `--node`, `--json`). -/
def configFlagTokens : Option String → List String
  | some c => ["--config", c]
  | none => []

/-- Modelled from the spec: the global flags of
`joblet_mcp_server.server` (implementation not among the available
sources).  Spec §4.2/§6: "global flags derived from context (config path
flag if set, node-name flag, output-format flag)" in that fixed order;
the flag spellings `--config`, `--node`, `--json` are the ones the source
test test_tool_command_mapping strips (tests/test_server.py line 199). -/
def globalFlags (ctx : JobletConfig) : List String :=
  configFlagTokens ctx.config_file ++ ["--node", ctx.node_name] ++
    (if ctx.json_output then ["--json"] else [])

/-- Validation failure of the command builder (spec §7): a required
argument is missing. -/
inductive BuildError where
  | schemaValidation (missing_field : String)
deriving DecidableEq, Repr

/-- Modelled from the spec: `CommandBuilder.build` of
`joblet_mcp_server.server` (implementation not among the available
sources).  Spec §4.2: validates required arguments (missing one fails
with `SchemaValidationError` naming the missing field, before any
process is spawned), then emits tokens in the fixed order: binary path,
sub-command path tokens, global flags, tool-specific flags/positionals
in declared order. -/
def build (d : ToolDescriptor) (args : List (String × ArgValue))
    (ctx : JobletConfig) : Except BuildError (List String) :=
  match missingRequired d args with
  | m :: _ => Except.error (BuildError.schemaValidation m)
  | [] => Except.ok
      (ctx.rnx_binary_path :: (d.path ++ globalFlags ctx ++ toolSpecificTokens d args))

/-- The run-job descriptor: sub-command path `job run`
(tests/test_server.py line 132), required `command`
(tests/test_integration.py line 187), optional positional args and
resource/metadata flags exercised by the tests (`--max-cpu` from
tests/test_integration.py line 133); tool-specific order per spec §8:
command, args, then limit flags. -/
def runJobTool : ToolDescriptor :=
  { name := "joblet_run_job"
    path := ["job", "run"]
    args :=
      [⟨"command", true, ArgRender.positional⟩,
       ⟨"args", false, ArgRender.positional⟩,
       ⟨"name", false, ArgRender.flag "--name"⟩,
       ⟨"runtime", false, ArgRender.flag "--runtime"⟩,
       ⟨"max_cpu", false, ArgRender.flag "--max-cpu"⟩,
       ⟨"max_memory", false, ArgRender.flag "--max-memory"⟩,
       ⟨"max_io_read", false, ArgRender.flag "--max-io-read"⟩,
       ⟨"max_io_write", false, ArgRender.flag "--max-io-write"⟩,
       ⟨"environment", false, ArgRender.repeatedFlag "--env"⟩,
       ⟨"volumes", false, ArgRender.repeatedFlag "--volume"⟩,
       ⟨"gpu_count", false, ArgRender.flag "--gpu"⟩] }

/-- The get-job-status descriptor: path `job status`, required
`job_uuid` (tests/test_server.py lines 134, 167). -/
def jobStatusTool : ToolDescriptor :=
  { name := "joblet_get_job_status"
    path := ["job", "status"]
    args := [⟨"job_uuid", true, ArgRender.positional⟩] }

/-- The tool registry: the tool-name → sub-command-path mapping of
tests/test_server.py lines 129-151 (test_tool_command_mapping), with the
required arguments the same test supplies as the minimal argument set
for each tool (lines 164-183). -/
def toolRegistry : List ToolDescriptor :=
  [runJobTool,
   ⟨"joblet_list_jobs", ["job", "list"], []⟩,
   jobStatusTool,
   ⟨"joblet_get_job_logs", ["job", "log"], [⟨"job_uuid", true, ArgRender.positional⟩]⟩,
   ⟨"joblet_stop_job", ["job", "stop"], [⟨"job_uuid", true, ArgRender.positional⟩]⟩,
   ⟨"joblet_cancel_job", ["job", "cancel"], [⟨"job_uuid", true, ArgRender.positional⟩]⟩,
   ⟨"joblet_delete_job", ["job", "delete"], [⟨"job_uuid", true, ArgRender.positional⟩]⟩,
   ⟨"joblet_create_volume", ["volume", "create"],
     [⟨"name", true, ArgRender.positional⟩, ⟨"size", true, ArgRender.flag "--size"⟩]⟩,
   ⟨"joblet_list_volumes", ["volume", "list"], []⟩,
   ⟨"joblet_remove_volume", ["volume", "remove"], [⟨"name", true, ArgRender.positional⟩]⟩,
   ⟨"joblet_create_network", ["network", "create"],
     [⟨"name", true, ArgRender.positional⟩, ⟨"cidr", true, ArgRender.flag "--cidr"⟩]⟩,
   ⟨"joblet_list_networks", ["network", "list"], []⟩,
   ⟨"joblet_remove_network", ["network", "remove"], [⟨"name", true, ArgRender.positional⟩]⟩,
   ⟨"joblet_get_system_status", ["monitor", "status"], []⟩,
   ⟨"joblet_get_system_metrics", ["monitor", "top"], []⟩,
   ⟨"joblet_get_gpu_status", ["monitor", "gpu"], []⟩,
   ⟨"joblet_list_nodes", ["nodes"], []⟩,
   ⟨"joblet_list_runtimes", ["runtime", "list"], []⟩,
   ⟨"joblet_remove_runtime", ["runtime", "remove"], [⟨"runtime", true, ArgRender.positional⟩]⟩]

/-- All required arguments of `d` are present in `args`. -/
def requiredPresent (d : ToolDescriptor) (args : List (String × ArgValue)) : Bool :=
  d.args.all (fun s => !s.required || (lookupArg args s.name).isSome)

/-- The mock configuration of tests/test_server.py lines 13-20. -/
def testCtx : JobletConfig :=
  { rnx_binary_path := "/usr/local/bin/rnx"
    config_file := some "/test/config.yaml"
    node_name := "test-node"
    json_output := true }

/-! ## Process execution and error classification -/

/-- The observable outcome of trying to spawn the external program: the
spawn itself failed (Python `FileNotFoundError`, mocked in
tests/test_server.py line 88), or the process ran to completion with an
exit code and captured stdout/stderr. -/
inductive SpawnOutcome where
  | launchFailure
  | exited (returncode : Int) (stdout : String) (stderr : String)
deriving DecidableEq, Repr

/-- The error kinds the execution entry point raises (spec §7 taxonomy):
binary not launchable vs. external program exited nonzero. -/
inductive ToolError where
  | binaryNotFound (msg : String)
  | executionError (msg : String)
deriving DecidableEq, Repr

/-- Modelled from the spec: the execution/classification core of
`JobletMCPServer._execute_tool` (implementation not among the available
sources).  Spec §4.3/§4.4/§6/§7 and the source tests: a spawn failure
raises the binary-not-found error with the message matched by
tests/test_server.py line 90; exit code 0 returns the raw standard
output unchanged (tests/test_server.py line 64 expects stdout `"[]"`
back as the string `"[]"`); a nonzero exit code raises the execution
error carrying the trimmed standard-error text as its message
(spec §4.4, tests/test_server.py line 77). -/
def executeTool : SpawnOutcome → Except ToolError String
  | SpawnOutcome.launchFailure =>
      Except.error (ToolError.binaryNotFound "rnx binary not found")
  | SpawnOutcome.exited rc out err =>
      if rc = 0 then Except.ok out
      else Except.error (ToolError.executionError (pyStrip err))

/-! ## Identifier resolution -/

/-- Resolution failure (spec §7): the shortened identifier matched zero
or multiple known full identifiers. -/
inductive ResolutionError where
  | notFound (short_id : String)
  | ambiguous (candidates : List String)
deriving DecidableEq, Repr

/-- The canonical full length of a job identifier: a standard 36-character
UUID string (the e2e tests derive short ids as `full_uuid[:8]`,
tests/e2e/test_job_management.py line 266). -/
def canonicalFullLength : Nat := 36

/-- The known full identifiers whose prefix equals the caller-supplied
shortened identifier (spec §4.5). -/
def prefixMatches (short_id : String) (known : List String) : List String :=
  known.filter (fun fullId => strIsPrefixOf short_id fullId)

/-- Modelled from the spec: `IdentifierResolver.resolve` of the server
layer (implementation not among the available sources).  Spec §4.5: an
identifier already of canonical full length is returned unchanged with
no lookup; otherwise the known full identifiers are prefix-matched —
exactly one match is returned, zero matches fail as not-found, several
matches fail as ambiguous naming the competing matches. -/
def resolveIdentifier (short_id : String) (known : List String) :
    Except ResolutionError String :=
  if short_id.length = canonicalFullLength then Except.ok short_id
  else
    match prefixMatches short_id known with
    | [fullId] => Except.ok fullId
    | [] => Except.error (ResolutionError.notFound short_id)
    | ms => Except.error (ResolutionError.ambiguous ms)

/-! ## Result normalization -/

/-- A normalized result (spec §3 NormalizedResult): one structured value,
a list of newline-delimited structured values, or the raw text, tagged by
constructor with which parse mode applied. -/
inductive NormalizedResult (α : Type) where
  | structured (v : α)
  | structuredLines (vs : List α)
  | raw (text : String)
deriving DecidableEq, Repr

/-- The non-blank lines of a standard-output text, the candidates for
line-by-line parsing (the caller-side fallback in
tests/e2e/test_job_management.py lines 181-189 parses
`line for line in list_result.strip().split("\n") if line.strip()`). -/
def normLines (stdout : String) : List String :=
  (pySplitLines stdout).filter (fun l => pyStrip l ≠ "")

/-- Modelled from the spec: `ResultNormalizer.normalize` of the server
layer (implementation not among the available sources), parametrized by
the structured-value parser.  Spec §4.4: attempt a single structured
parse of the whole standard output; on failure attempt newline-delimited
structured values (one per line); on failure return the raw text
verbatim — never raising on parse failure.  Only invoked on
exit code 0 results (spec §4.4). -/
def normalize {α : Type} (parse : String → Option α) (stdout : String) :
    NormalizedResult α :=
  match parse stdout with
  | some v => NormalizedResult.structured v
  | none =>
      let lines := normLines stdout
      if lines ≠ [] ∧ lines.all (fun l => (parse l).isSome) then
        NormalizedResult.structuredLines (lines.filterMap parse)
      else
        NormalizedResult.raw stdout

/-- A minimal structured-text recognizer used to instantiate `normalize`
at concrete inputs: accepts exactly the texts that start with a JSON
object/array opener after trimming, returning the trimmed text. -/
def braceParse (s : String) : Option String :=
  if strIsPrefixOf "\x7b" (pyStrip s) || strIsPrefixOf "[" (pyStrip s) then
    some (pyStrip s)
  else none

/-- The spec §8 status sequence `[running, running, completed, ...]`:
two `running` observations followed by `completed`. -/
def runningThenCompleted : Nat → String :=
  fun i => if i < 2 then "running" else "completed"

/-!
# Theorems
-/

/-- If the status observed at iteration `w + k` is in `terminalCheck` and
no earlier observation from `w` on is, the loop body returns that
status. -/
theorem waitAux_first_terminal (statuses : Nat → String) :
    ∀ (r w k : Nat), k < r → statuses (w + k) ∈ terminalCheck →
      (∀ i, i < k → statuses (w + i) ∉ terminalCheck) →
      waitForJobCompletionAux statuses w r = some (statuses (w + k)) := by
  intro r
  induction r with
  | zero => intro w k hk; exact absurd hk (Nat.not_lt_zero k)
  | succ r ih =>
    intro w k hk hterm hbefore
    cases k with
    | zero =>
      simp only [Nat.add_zero] at hterm
      simp [waitForJobCompletionAux, hterm]
    | succ j =>
      have hw : statuses w ∉ terminalCheck := by
        have := hbefore 0 (Nat.succ_pos j)
        simpa using this
      have hterm' : statuses (w + 1 + j) ∈ terminalCheck := by
        have : w + 1 + j = w + (j + 1) := by omega
        rw [this]; exact hterm
      have hbefore' : ∀ i, i < j → statuses (w + 1 + i) ∉ terminalCheck := by
        intro i hi
        have : w + 1 + i = w + (i + 1) := by omega
        rw [this]
        exact hbefore (i + 1) (Nat.succ_lt_succ hi)
      have hj : j < r := Nat.lt_of_succ_lt_succ hk
      have := ih (w + 1) j hj hterm' hbefore'
      have hgoal : w + 1 + j = w + (j + 1) := by omega
      rw [hgoal] at this
      simp [waitForJobCompletionAux, hw, this]

/-- If no observation from `w` through the remaining budget is in
`terminalCheck`, the loop body exhausts the budget. -/
theorem waitAux_none (statuses : Nat → String) :
    ∀ (r w : Nat), (∀ i, i < r → statuses (w + i) ∉ terminalCheck) →
      waitForJobCompletionAux statuses w r = none := by
  intro r
  induction r with
  | zero => intro w _; rfl
  | succ r ih =>
    intro w h
    have hw : statuses w ∉ terminalCheck := by
      have := h 0 (Nat.succ_pos r)
      simpa using this
    have hrest : ∀ i, i < r → statuses (w + 1 + i) ∉ terminalCheck := by
      intro i hi
      have : w + 1 + i = w + (i + 1) := by omega
      rw [this]
      exact h (i + 1) (Nat.succ_lt_succ hi)
    simp [waitForJobCompletionAux, hw, ih (w + 1) hrest]

/-- C1 counterexample: on the status sequence whose first observation is
the terminal status `"cancelled"`, the source polling loop does not end at
that element — it keeps polling and returns the later `"completed"`,
because its membership test omits `"cancelled"`. -/
theorem C1_counterexample_cancelled_not_loop_ending :
    waitForJobCompletion cancelledFirstSeq "test-job" 30 ≠ Except.ok "cancelled" ∧
    waitForJobCompletion cancelledFirstSeq "test-job" 30 = Except.ok "completed" := by
  decide

/-- C1 (amended): every status-polling loop awaiting a job returns the
observed status as soon as that status is a member of
`{completed, failed, stopped}`; the terminal status `"cancelled"` is not
in the loop's membership test, so the loop treats it as non-terminal and
polls past it. -/
theorem C1_loop_returns_first_checked_terminal (statuses : Nat → String)
    (job_uuid : String) (max_wait k : Nat) (hk : k < max_wait)
    (hterm : statuses k ∈ terminalCheck)
    (hbefore : ∀ i, i < k → statuses i ∉ terminalCheck) :
    waitForJobCompletion statuses job_uuid max_wait = Except.ok (statuses k) ∧
    "cancelled" ∉ terminalCheck := by
  constructor
  · have h := waitAux_first_terminal statuses max_wait 0 k hk
      (by simpa using hterm) (by intro i hi; simpa using hbefore i hi)
    simp only [Nat.zero_add] at h
    simp [waitForJobCompletion, h]
  · decide

/-- C1 witness: on the spec §8 sequence `[running, running, completed]`
with a 5-unit budget the loop returns `"completed"` after two non-terminal
observations. -/
theorem C1_loop_returns_first_checked_terminal_witness :
    waitForJobCompletion runningThenCompleted "job-a" 5 = Except.ok "completed" ∧
    "cancelled" ∉ terminalCheck :=
  C1_loop_returns_first_checked_terminal runningThenCompleted "job-a" 5 2
    (by decide) (by decide) (by decide)

/-- C5: when the wait budget elapses with no terminal status observed, the
polling loop fails with the timeout error naming the job identifier and
the allowed wait time, propagated to the caller as the loop's result. -/
theorem C5_poll_timeout_propagates (statuses : Nat → String) (job_uuid : String)
    (max_wait : Nat)
    (hnon : ∀ i, i < max_wait → statuses i ∉ terminalStatuses) :
    waitForJobCompletion statuses job_uuid max_wait =
      Except.error ("Job " ++ job_uuid ++ " did not complete within " ++
        toString max_wait ++ " seconds") := by
  have hsub : ∀ i, i < max_wait → statuses i ∉ terminalCheck := by
    intro i hi hmem
    apply hnon i hi
    simp only [terminalCheck, List.mem_cons] at hmem
    rcases hmem with h | h | h | h
    · simp [terminalStatuses, h]
    · simp [terminalStatuses, h]
    · simp [terminalStatuses, h]
    · exact absurd h (List.not_mem_nil _)
  have h := waitAux_none statuses max_wait 0
    (by intro i hi; simpa using hsub i hi)
  simp [waitForJobCompletion, h, timeoutMsg]

/-- C5 witness: a sequence that never leaves `running` within a 3-unit
budget yields the timeout error for job `"job-w"` and budget 3. -/
theorem C5_poll_timeout_propagates_witness :
    waitForJobCompletion (fun _ => "running") "job-w" 3 =
      Except.error ("Job " ++ "job-w" ++ " did not complete within " ++
        toString 3 ++ " seconds") :=
  C5_poll_timeout_propagates (fun _ => "running") "job-w" 3 (by decide)

/-- C3: the run-job result extraction
`job_data.get("job_uuid") or job_data.get("uuid")` checks `job_uuid`
first, falls back to `uuid` when `job_uuid` is absent, and so obtains the
identifier whenever the result carries it under either accepted field
name. -/
theorem C3_job_identifier_two_field_names (d : List (String × String))
    (id : String) (hid : id ≠ "") :
    (pyGet d "job_uuid" = some id → extractJobUuid d = some id) ∧
    (pyGet d "job_uuid" = none → extractJobUuid d = pyGet d "uuid") ∧
    (pyGet d "job_uuid" = none → pyGet d "uuid" = some id →
      extractJobUuid d = some id) := by
  refine ⟨?_, ?_, ?_⟩
  · intro h; simp [extractJobUuid, h, pyOrStr, hid]
  · intro h; simp [extractJobUuid, h, pyOrStr]
  · intro h1 h2; simp [extractJobUuid, h1, h2, pyOrStr]

/-- C3 witness: a result object carrying the identifier under `job_uuid`
yields it. -/
theorem C3_job_identifier_two_field_names_witness :
    extractJobUuid [("job_uuid", "test-123")] = some "test-123" :=
  (C3_job_identifier_two_field_names [("job_uuid", "test-123")] "test-123"
    (by decide)).1 (by rfl)

/-- C4: a nonzero exit code of the external program raises the execution
error whose message is exactly the trimmed standard-error text. -/
theorem C4_execution_error_verbatim_stderr (rc : Int) (out err : String)
    (hrc : rc ≠ 0) :
    executeTool (SpawnOutcome.exited rc out err) =
      Except.error (ToolError.executionError (pyStrip err)) := by
  simp [executeTool, hrc]

/-- C4 witness: exit code 1 with standard error `"Error: Job not found"`
raises with message exactly `"Error: Job not found"`. -/
theorem C4_execution_error_verbatim_stderr_witness :
    executeTool (SpawnOutcome.exited 1 "" "Error: Job not found") =
      Except.error (ToolError.executionError "Error: Job not found") := by
  rw [C4_execution_error_verbatim_stderr 1 "" "Error: Job not found" (by decide)]
  decide

/-- C9: a spawn failure fails with the binary-not-found error, a kind a
caller can distinguish from the execution error of a launched process
that exited nonzero. -/
theorem C9_binary_not_found_distinct_kind :
    executeTool SpawnOutcome.launchFailure =
      Except.error (ToolError.binaryNotFound "rnx binary not found") ∧
    (∀ m₁ m₂ : String, ToolError.binaryNotFound m₁ ≠ ToolError.executionError m₂) :=
  ⟨rfl, fun _ _ h => ToolError.noConfusion h⟩

/-- C10: exit code 0 returns the raw standard-output text unmodified to
the caller; the execution entry point performs no structured
interpretation of it. -/
theorem C10_success_returns_raw_stdout (out err : String) :
    executeTool (SpawnOutcome.exited 0 out err) = Except.ok out := by
  simp [executeTool]

/-- C6: an identifier of canonical full length is returned unchanged with
no lookup; otherwise prefix matching against the known full identifiers
returns the unique match, fails as not-found on zero matches, and fails
as ambiguous naming the competing matches on several. -/
theorem C6_identifier_resolution (pid : String) (known : List String) :
    (pid.length = canonicalFullLength →
      resolveIdentifier pid known = Except.ok pid) ∧
    (pid.length ≠ canonicalFullLength →
      (∀ fullId, prefixMatches pid known = [fullId] →
        resolveIdentifier pid known = Except.ok fullId) ∧
      (prefixMatches pid known = [] →
        resolveIdentifier pid known = Except.error (ResolutionError.notFound pid)) ∧
      (2 ≤ (prefixMatches pid known).length →
        resolveIdentifier pid known =
          Except.error (ResolutionError.ambiguous (prefixMatches pid known)))) := by
  constructor
  · intro h; simp [resolveIdentifier, h]
  · intro h
    refine ⟨?_, ?_, ?_⟩
    · intro fullId hpm; simp [resolveIdentifier, h, hpm]
    · intro hpm; simp [resolveIdentifier, h, hpm]
    · intro hlen
      rcases hpm : prefixMatches pid known with _ | ⟨a, _ | ⟨b, t⟩⟩
      · rw [hpm] at hlen; simp at hlen
      · rw [hpm] at hlen; simp at hlen
      · simp [resolveIdentifier, h, hpm]

/-- C6 witness: with known identifiers
`{"abcd1234-xxxx", "abcd5678-yyyy"}`, the shortened identifier
`"abcd1234"` resolves to `"abcd1234-xxxx"`. -/
theorem C6_identifier_resolution_witness :
    resolveIdentifier "abcd1234" ["abcd1234-xxxx", "abcd5678-yyyy"] =
      Except.ok "abcd1234-xxxx" :=
  ((C6_identifier_resolution "abcd1234" ["abcd1234-xxxx", "abcd5678-yyyy"]).2
    (by decide)).1 "abcd1234-xxxx" (by decide)

/-- C8: normalization of a successful result first attempts one
structured parse of the whole text, then newline-delimited structured
values, and otherwise returns the raw text verbatim; a parse failure
yields the raw-text result rather than an error. -/
theorem C8_normalization_fallback {α : Type} (parse : String → Option α)
    (stdout : String) :
    (∀ v, parse stdout = some v →
      normalize parse stdout = NormalizedResult.structured v) ∧
    (parse stdout = none →
      ((normLines stdout ≠ [] ∧
          (normLines stdout).all (fun l => (parse l).isSome) = true) →
        normalize parse stdout =
          NormalizedResult.structuredLines ((normLines stdout).filterMap parse)) ∧
      (¬(normLines stdout ≠ [] ∧
          (normLines stdout).all (fun l => (parse l).isSome) = true) →
        normalize parse stdout = NormalizedResult.raw stdout)) := by
  refine ⟨?_, ?_⟩
  · intro v h; simp [normalize, h]
  · intro h
    refine ⟨?_, ?_⟩
    · intro hcond; simp only [normalize, h]; rw [if_pos hcond]
    · intro hcond; simp only [normalize, h]; rw [if_neg hcond]

/-- C8 witness: the plain text `"Hello World\n"` fails both parse
attempts and normalizes to raw-text mode, verbatim and without error. -/
theorem C8_normalization_fallback_witness :
    normalize braceParse "Hello World\n" = NormalizedResult.raw "Hello World\n" :=
  ((C8_normalization_fallback braceParse "Hello World\n").2 (by decide)).2
    (by decide)

/-- The required-argument check of the builder, as a list emptiness: no
required argument is missing exactly when `requiredPresent` holds. -/
theorem missingRequired_eq_nil_iff (d : ToolDescriptor)
    (args : List (String × ArgValue)) :
    missingRequired d args = [] ↔ requiredPresent d args = true := by
  simp only [missingRequired, requiredPresent, List.map_eq_nil_iff,
    List.filter_eq_nil_iff, List.all_eq_true]
  constructor
  · intro h s hs
    have := h s hs
    cases hreq : s.required <;> cases hopt : lookupArg args s.name <;>
      simp_all
  · intro h s hs
    have := h s hs
    cases hreq : s.required <;> cases hopt : lookupArg args s.name <;>
      simp_all

/-- C2: for every registered tool, for every argument mapping and
invocation context, a successfully built command starts with the binary
path and places the global flags — config-path flag when set, node-name
flag, output-format flag, in that fixed order — immediately after the
sub-command path tokens and before all tool-specific tokens. -/
theorem C2_global_flag_placement (d : ToolDescriptor) (hd : d ∈ toolRegistry)
    (args : List (String × ArgValue)) (ctx : JobletConfig) (cmd : List String)
    (hok : build d args ctx = Except.ok cmd) :
    cmd = ctx.rnx_binary_path ::
      (d.path ++
        (configFlagTokens ctx.config_file ++ ["--node", ctx.node_name] ++
          (if ctx.json_output then ["--json"] else [])) ++
        toolSpecificTokens d args) := by
  unfold build at hok
  rcases hmr : missingRequired d args with _ | ⟨m, ms⟩
  · rw [hmr] at hok
    simp only [Except.ok.injEq] at hok
    rw [← hok]
    simp [globalFlags]
  · rw [hmr] at hok
    exact absurd hok (by simp)

/-- C2 witness: the run-job tool under the mock configuration of the
source tests builds
`/usr/local/bin/rnx job run --config /test/config.yaml --node test-node
--json echo`. -/
theorem C2_global_flag_placement_witness :
    ["/usr/local/bin/rnx", "job", "run", "--config", "/test/config.yaml",
        "--node", "test-node", "--json", "echo"] =
      testCtx.rnx_binary_path ::
        (runJobTool.path ++
          (configFlagTokens testCtx.config_file ++ ["--node", testCtx.node_name] ++
            (if testCtx.json_output then ["--json"] else [])) ++
          toolSpecificTokens runJobTool [("command", ArgValue.str "echo")]) :=
  C2_global_flag_placement runJobTool (by decide)
    [("command", ArgValue.str "echo")] testCtx
    ["/usr/local/bin/rnx", "job", "run", "--config", "/test/config.yaml",
      "--node", "test-node", "--json", "echo"] (by decide)

/-- C7: for every registered tool, the builder succeeds exactly when all
required arguments are present (so omitting a required argument fails,
before any process is spawned, and a complete argument set never fails
validation), and any validation failure names a required argument that is
missing. -/
theorem C7_required_argument_enforcement (d : ToolDescriptor)
    (hd : d ∈ toolRegistry) (ctx : JobletConfig)
    (args : List (String × ArgValue)) :
    ((build d args ctx).isOk = requiredPresent d args) ∧
    (∀ m, build d args ctx = Except.error (BuildError.schemaValidation m) →
      ∃ s, s ∈ d.args ∧ s.required = true ∧ s.name = m ∧
        lookupArg args s.name = none) := by
  rcases hmr : missingRequired d args with _ | ⟨m, ms⟩
  · constructor
    · have hrp : requiredPresent d args = true :=
        (missingRequired_eq_nil_iff d args).mp hmr
      rw [hrp]
      simp [build, hmr, Except.isOk, Except.toBool]
    · intro m' hm'
      rw [build, hmr] at hm'
      exact absurd hm' (by simp)
  · constructor
    · have hrp : requiredPresent d args = false := by
        cases hrpv : requiredPresent d args
        · rfl
        · have := (missingRequired_eq_nil_iff d args).mpr hrpv
          rw [this] at hmr
          exact absurd hmr (by simp)
      rw [hrp]
      simp [build, hmr, Except.isOk, Except.toBool]
    · intro m' hm'
      rw [build, hmr] at hm'
      simp only [Except.error.injEq, BuildError.schemaValidation.injEq] at hm'
      have hmem : m' ∈ missingRequired d args := by
        rw [hmr, ← hm']
        exact List.mem_cons_self m ms
      simp only [missingRequired, List.mem_map, List.mem_filter] at hmem
      obtain ⟨s, ⟨hs, hp⟩, hname⟩ := hmem
      refine ⟨s, hs, ?_, hname, ?_⟩
      · have := (Bool.and_eq_true _ _).mp hp
        exact this.1
      · have := (Bool.and_eq_true _ _).mp hp
        exact Option.isNone_iff_eq_none.mp this.2

/-- C7 witness: the get-job-status tool with an empty argument mapping is
rejected by the required-argument check (its `job_uuid` is required), as
the builder's success flag reproduces. -/
theorem C7_required_argument_enforcement_witness :
    (build jobStatusTool [] testCtx).isOk = requiredPresent jobStatusTool [] ∧
    requiredPresent jobStatusTool [] = false :=
  ⟨(C7_required_argument_enforcement jobStatusTool (by decide) testCtx []).1,
    by decide⟩

end JobletMcp
